import Mathlib

/-!
Shallow embedding of `handright/_template.py` (the `Template` parameter
class of the Handright handwriting simulator) and proofs about it.

Modelling conventions:
* Python `int` is `ℤ`; Python `float` is `ℚ` (all arithmetic the code
  performs on floats — division of an integer by 32 or 64, and storing
  literals — is exact, so rational arithmetic is a faithful model for the
  equalities proved here).
* A PIL image is a record of its color mode and its pixel size; PIL
  structural image equality is modelled by structural equality of the
  record.  A font is an abstract handle compared by equality.
* The Python `fill` value is either a scalar or a tuple of scalars,
  modelled by the inductive type `Fill`.
* Python attribute mutation is modelled by state passing: every
  `set_X` method becomes a function `Template → … → Template`, and the
  constructor `__init__` becomes `Template.init`, which threads the
  partially initialised object through the same sequence of setter
  calls the Python constructor performs.  Every field is written by one
  of those calls before any setter reads it, exactly as in the source,
  so the initial placeholder object never influences the result.
* For object identity (needed by `copy_templates`, which relies on
  `copy.copy` allocating a fresh object), a heap of `Template` values
  indexed by addresses (`Ref`) is used; see `copy_templates` below.
-/

namespace Handright

/-- A PIL color mode, carrying the data the embedded code observes:
the number of bands (e.g. 1 for `L`, 3 for `RGB`, 4 for `RGBA`) and a
tag distinguishing modes with the same band count. -/
structure Mode where
  bands : ℕ
  tag : ℕ
deriving DecidableEq

/-- A PIL image as observed by `_template.py`: its mode, its pixel
`size` (width, height), and abstract pixel data (so that distinct
images of the same mode and size stay distinguishable, as under PIL's
structural `__eq__`). -/
structure Image where
  mode : Mode
  size : ℤ × ℤ
  data : List ℕ
deriving DecidableEq

/-- Modelled from the spec: `count_bands` lives in `handright._util`,
which is not under `src/`; per the spec's data model a color mode is
"scalar for single-band, tuple for multi-band", i.e. `count_bands`
returns the number of bands of the mode. -/
def count_bands (mode : Mode) : ℕ :=
  mode.bands

/-- An abstract Pillow font handle, compared by equality. -/
abbrev Font := ℕ

/-- A Python fill value: a scalar pixel value or a tuple of band
values. -/
inductive Fill where
  | scalar (v : ℤ)
  | tup (vs : List ℤ)
deriving DecidableEq

/-- Constant `_DEFAULT_END_CHARS` from `_template.py`. -/
def _DEFAULT_END_CHARS : String :=
  "，。》？；：’”】｝、！％）,.>?;:]\x7d!%)′″℃℉"

/-- Constant `_DEFAULT_PERTURB_THETA_SIGMA = 0.07`. -/
def _DEFAULT_PERTURB_THETA_SIGMA : ℚ := 7 / 100

/-- Constant `_DEFAULT_WORD_SPACING = 0`. -/
def _DEFAULT_WORD_SPACING : ℤ := 0

/-- Constant `_DEFAULT_LEFT_MARGIN = 0`. -/
def _DEFAULT_LEFT_MARGIN : ℤ := 0

/-- Constant `_DEFAULT_TOP_MARGIN = 0`. -/
def _DEFAULT_TOP_MARGIN : ℤ := 0

/-- Constant `_DEFAULT_RIGHT_MARGIN = 0`. -/
def _DEFAULT_RIGHT_MARGIN : ℤ := 0

/-- Constant `_DEFAULT_BOTTOM_MARGIN = 0`. -/
def _DEFAULT_BOTTOM_MARGIN : ℤ := 0

/-- The state of a `Template` object: one field per Python instance
attribute (`self._background`, `self._font_size`, …). -/
structure Template where
  background : Image
  font_size : ℤ
  line_spacing : ℤ
  font : Font
  fill : Fill
  left_margin : ℤ
  top_margin : ℤ
  right_margin : ℤ
  bottom_margin : ℤ
  word_spacing : ℤ
  line_spacing_sigma : ℚ
  font_size_sigma : ℚ
  word_spacing_sigma : ℚ
  end_chars : String
  perturb_x_sigma : ℚ
  perturb_y_sigma : ℚ
  perturb_theta_sigma : ℚ
deriving DecidableEq

/-- Embeds `Template.set_background`. -/
def Template.set_background (t : Template) (background : Image) : Template :=
  { t with background := background }

/-- Embeds `Template.set_font_size`.  Note: it stores the font size and
nothing else. -/
def Template.set_font_size (t : Template) (font_size : ℤ) : Template :=
  { t with font_size := font_size }

/-- Embeds `Template.set_line_spacing`. -/
def Template.set_line_spacing (t : Template) (line_spacing : Option ℤ) : Template :=
  match line_spacing with
  | none => { t with line_spacing := t.font_size }
  | some v => { t with line_spacing := v }

/-- Embeds `Template.set_font`. -/
def Template.set_font (t : Template) (font : Font) : Template :=
  { t with font := font }

/-- Embeds `Template.set_fill`. -/
def Template.set_fill (t : Template) (fill : Option Fill) : Template :=
  match fill with
  | none =>
      let n_bands := count_bands t.background.mode
      if n_bands = 1 then { t with fill := Fill.scalar 0 }
      else { t with fill := Fill.tup (List.replicate n_bands 0) }
  | some f => { t with fill := f }

/-- Embeds `Template.set_left_margin`. -/
def Template.set_left_margin (t : Template) (left_margin : ℤ) : Template :=
  { t with left_margin := left_margin }

/-- Embeds `Template.set_top_margin`. -/
def Template.set_top_margin (t : Template) (top_margin : ℤ) : Template :=
  { t with top_margin := top_margin }

/-- Embeds `Template.set_right_margin`. -/
def Template.set_right_margin (t : Template) (right_margin : ℤ) : Template :=
  { t with right_margin := right_margin }

/-- Embeds `Template.set_bottom_margin`. -/
def Template.set_bottom_margin (t : Template) (bottom_margin : ℤ) : Template :=
  { t with bottom_margin := bottom_margin }

/-- Embeds `Template.set_word_spacing`.  It stores the value unconditionally;
the source performs no validation here. -/
def Template.set_word_spacing (t : Template) (word_spacing : ℤ) : Template :=
  { t with word_spacing := word_spacing }

/-- Embeds `Template.set_line_spacing_sigma`. -/
def Template.set_line_spacing_sigma (t : Template) (line_spacing_sigma : Option ℚ) : Template :=
  match line_spacing_sigma with
  | none => { t with line_spacing_sigma := (t.font_size : ℚ) / 32 }
  | some v => { t with line_spacing_sigma := v }

/-- Embeds `Template.set_font_size_sigma`. -/
def Template.set_font_size_sigma (t : Template) (font_size_sigma : Option ℚ) : Template :=
  match font_size_sigma with
  | none => { t with font_size_sigma := (t.font_size : ℚ) / 64 }
  | some v => { t with font_size_sigma := v }

/-- Embeds `Template.set_word_spacing_sigma`. -/
def Template.set_word_spacing_sigma (t : Template) (word_spacing_sigma : Option ℚ) : Template :=
  match word_spacing_sigma with
  | none => { t with word_spacing_sigma := (t.font_size : ℚ) / 32 }
  | some v => { t with word_spacing_sigma := v }

/-- Embeds `Template.set_end_chars`. -/
def Template.set_end_chars (t : Template) (end_chars : String) : Template :=
  { t with end_chars := end_chars }

/-- Embeds `Template.set_perturb_x_sigma`. -/
def Template.set_perturb_x_sigma (t : Template) (perturb_x_sigma : Option ℚ) : Template :=
  match perturb_x_sigma with
  | none => { t with perturb_x_sigma := (t.font_size : ℚ) / 32 }
  | some v => { t with perturb_x_sigma := v }

/-- Embeds `Template.set_perturb_y_sigma`. -/
def Template.set_perturb_y_sigma (t : Template) (perturb_y_sigma : Option ℚ) : Template :=
  match perturb_y_sigma with
  | none => { t with perturb_y_sigma := (t.font_size : ℚ) / 32 }
  | some v => { t with perturb_y_sigma := v }

/-- Embeds `Template.set_perturb_theta_sigma`. -/
def Template.set_perturb_theta_sigma (t : Template) (perturb_theta_sigma : ℚ) : Template :=
  { t with perturb_theta_sigma := perturb_theta_sigma }

/-- Embeds `Template.get_background`. -/
def Template.get_background (t : Template) : Image := t.background

/-- Embeds `Template.get_line_spacing`. -/
def Template.get_line_spacing (t : Template) : ℤ := t.line_spacing

/-- Embeds `Template.get_font_size`. -/
def Template.get_font_size (t : Template) : ℤ := t.font_size

/-- Embeds `Template.get_font`. -/
def Template.get_font (t : Template) : Font := t.font

/-- Embeds `Template.get_fill`. -/
def Template.get_fill (t : Template) : Fill := t.fill

/-- Embeds `Template.get_left_margin`. -/
def Template.get_left_margin (t : Template) : ℤ := t.left_margin

/-- Embeds `Template.get_top_margin`. -/
def Template.get_top_margin (t : Template) : ℤ := t.top_margin

/-- Embeds `Template.get_right_margin`. -/
def Template.get_right_margin (t : Template) : ℤ := t.right_margin

/-- Embeds `Template.get_bottom_margin`. -/
def Template.get_bottom_margin (t : Template) : ℤ := t.bottom_margin

/-- Embeds `Template.get_word_spacing`. -/
def Template.get_word_spacing (t : Template) : ℤ := t.word_spacing

/-- Embeds `Template.get_line_spacing_sigma`. -/
def Template.get_line_spacing_sigma (t : Template) : ℚ := t.line_spacing_sigma

/-- Embeds `Template.get_font_size_sigma`. -/
def Template.get_font_size_sigma (t : Template) : ℚ := t.font_size_sigma

/-- Embeds `Template.get_word_spacing_sigma`. -/
def Template.get_word_spacing_sigma (t : Template) : ℚ := t.word_spacing_sigma

/-- Embeds `Template.get_end_chars`. -/
def Template.get_end_chars (t : Template) : String := t.end_chars

/-- Embeds `Template.get_perturb_x_sigma`. -/
def Template.get_perturb_x_sigma (t : Template) : ℚ := t.perturb_x_sigma

/-- Embeds `Template.get_perturb_y_sigma`. -/
def Template.get_perturb_y_sigma (t : Template) : ℚ := t.perturb_y_sigma

/-- Embeds `Template.get_perturb_theta_sigma`. -/
def Template.get_perturb_theta_sigma (t : Template) : ℚ := t.perturb_theta_sigma

/-- Embeds `Template.get_size`: `return self.get_background().size`. -/
def Template.get_size (t : Template) : ℤ × ℤ :=
  t.get_background.size

/-- Placeholder image for the not-yet-initialised object state.  In
Python the attributes simply do not exist before `__init__` assigns
them; every placeholder field below is overwritten by `Template.init`
before any setter reads it, mirroring the read-after-write discipline
of the source constructor. -/
def placeholderImage : Image :=
  { mode := { bands := 1, tag := 0 }, size := (0, 0), data := [] }

/-- Placeholder object state before `__init__` runs; see
`placeholderImage`. -/
def placeholderTemplate : Template :=
  { background := placeholderImage
    font_size := 0
    line_spacing := 0
    font := 0
    fill := Fill.scalar 0
    left_margin := 0
    top_margin := 0
    right_margin := 0
    bottom_margin := 0
    word_spacing := 0
    line_spacing_sigma := 0
    font_size_sigma := 0
    word_spacing_sigma := 0
    end_chars := ""
    perturb_x_sigma := 0
    perturb_y_sigma := 0
    perturb_theta_sigma := 0 }

/-- Embeds `Template.__init__`: the same sequence of setter calls the Python
constructor performs, in source order.  Python's optional arguments
are passed explicitly here; "left unset" corresponds to passing `none`
for the `Option`-typed arguments and to passing the `_DEFAULT_…`
constant for the remaining ones. -/
def Template.init
    (background : Image) (font_size : ℤ) (font : Font)
    (line_spacing : Option ℤ) (fill : Option Fill)
    (left_margin top_margin right_margin bottom_margin word_spacing : ℤ)
    (line_spacing_sigma font_size_sigma word_spacing_sigma : Option ℚ)
    (end_chars : String)
    (perturb_x_sigma perturb_y_sigma : Option ℚ)
    (perturb_theta_sigma : ℚ) : Template :=
  let t := placeholderTemplate
  let t := t.set_background background
  let t := t.set_font_size font_size
  let t := t.set_line_spacing line_spacing
  let t := t.set_font font
  let t := t.set_fill fill
  let t := t.set_left_margin left_margin
  let t := t.set_top_margin top_margin
  let t := t.set_right_margin right_margin
  let t := t.set_bottom_margin bottom_margin
  let t := t.set_word_spacing word_spacing
  let t := t.set_line_spacing_sigma line_spacing_sigma
  let t := t.set_font_size_sigma font_size_sigma
  let t := t.set_word_spacing_sigma word_spacing_sigma
  let t := t.set_end_chars end_chars
  let t := t.set_perturb_x_sigma perturb_x_sigma
  let t := t.set_perturb_y_sigma perturb_y_sigma
  t.set_perturb_theta_sigma perturb_theta_sigma

/-- Embeds `Template.__eq__`: the conjunction of getter-wise comparisons, in
source order.  (The `isinstance` guard of the source is inherent in
the typing: both sides are `Template`s.) -/
def Template.eq (t other : Template) : Bool :=
  decide (t.get_background = other.get_background)
    && decide (t.get_line_spacing = other.get_line_spacing)
    && decide (t.get_line_spacing_sigma = other.get_line_spacing_sigma)
    && decide (t.get_font_size = other.get_font_size)
    && decide (t.get_font_size_sigma = other.get_font_size_sigma)
    && decide (t.get_font = other.get_font)
    && decide (t.get_fill = other.get_fill)
    && decide (t.get_left_margin = other.get_left_margin)
    && decide (t.get_top_margin = other.get_top_margin)
    && decide (t.get_right_margin = other.get_right_margin)
    && decide (t.get_bottom_margin = other.get_bottom_margin)
    && decide (t.get_word_spacing = other.get_word_spacing)
    && decide (t.get_word_spacing_sigma = other.get_word_spacing_sigma)
    && decide (t.get_end_chars = other.get_end_chars)
    && decide (t.get_perturb_x_sigma = other.get_perturb_x_sigma)
    && decide (t.get_perturb_y_sigma = other.get_perturb_y_sigma)
    && decide (t.get_perturb_theta_sigma = other.get_perturb_theta_sigma)

/-- Characterisation of `Template.init`: the field values the Python
constructor leaves on the object, as a single record.  Shared helper
for the claim theorems below. -/
theorem Template.init_spec (bg : Image) (fs : ℤ) (ft : Font)
    (ls : Option ℤ) (fl : Option Fill) (lm tm rm bm ws : ℤ)
    (lss fss wss : Option ℚ) (ec : String) (pxs pys : Option ℚ) (pts : ℚ) :
    Template.init bg fs ft ls fl lm tm rm bm ws lss fss wss ec pxs pys pts =
      { background := bg
        font_size := fs
        line_spacing := ls.getD fs
        font := ft
        fill :=
          match fl with
          | none =>
              if count_bands bg.mode = 1 then Fill.scalar 0
              else Fill.tup (List.replicate (count_bands bg.mode) 0)
          | some f => f
        left_margin := lm
        top_margin := tm
        right_margin := rm
        bottom_margin := bm
        word_spacing := ws
        line_spacing_sigma := lss.getD ((fs : ℚ) / 32)
        font_size_sigma := fss.getD ((fs : ℚ) / 64)
        word_spacing_sigma := wss.getD ((fs : ℚ) / 32)
        end_chars := ec
        perturb_x_sigma := pxs.getD ((fs : ℚ) / 32)
        perturb_y_sigma := pys.getD ((fs : ℚ) / 32)
        perturb_theta_sigma := pts } := by
  cases ls <;> cases fl <;> cases lss <;> cases fss <;> cases wss
    <;> cases pxs <;> cases pys <;> by_cases h : count_bands bg.mode = 1
    <;> simp [Template.init, Template.set_background, Template.set_font_size,
      Template.set_line_spacing, Template.set_font, Template.set_fill,
      Template.set_left_margin, Template.set_top_margin,
      Template.set_right_margin, Template.set_bottom_margin,
      Template.set_word_spacing, Template.set_line_spacing_sigma,
      Template.set_font_size_sigma, Template.set_word_spacing_sigma,
      Template.set_end_chars, Template.set_perturb_x_sigma,
      Template.set_perturb_y_sigma, Template.set_perturb_theta_sigma, h]

/-- Reflexivity of the embedded `__eq__`. -/
theorem Template.eq_refl (t : Template) : Template.eq t t = true := by
  simp [Template.eq]

/-- Sample single-band (`L`-mode) 200×100 background. -/
def sampleImage : Image :=
  { mode := { bands := 1, tag := 0 }, size := (200, 100), data := [7] }

/-- Sample three-band (`RGB`-mode) 200×100 background. -/
def sampleRGB : Image :=
  { mode := { bands := 3, tag := 1 }, size := (200, 100), data := [7] }

/-- Sample template over `sampleImage` with font size 10 and every
optional parameter left unset. -/
def sampleTemplate : Template :=
  Template.init sampleImage 10 0 none none 0 0 0 0 0 none none none
    _DEFAULT_END_CHARS none none _DEFAULT_PERTURB_THETA_SIGMA

/-- Sample template over `sampleRGB` with font size 10 and every
optional parameter left unset. -/
def sampleRGBTemplate : Template :=
  Template.init sampleRGB 10 0 none none 0 0 0 0 0 none none none
    _DEFAULT_END_CHARS none none _DEFAULT_PERTURB_THETA_SIGMA

/-- Sample template over `sampleImage` with font size 32 and every
optional parameter left unset. -/
def sampleTemplate32 : Template :=
  Template.init sampleImage 32 0 none none 0 0 0 0 0 none none none
    _DEFAULT_END_CHARS none none _DEFAULT_PERTURB_THETA_SIGMA

/-- C5: constructing with all sigma parameters unset derives
`line_spacing_sigma = font_size/32`, `font_size_sigma = font_size/64`,
`word_spacing_sigma = font_size/32`, `perturb_x_sigma = font_size/32`,
`perturb_y_sigma = font_size/32` and `perturb_theta_sigma = 0.07` (the
fixed default constant); passing explicit values stores those values
instead. -/
theorem init_sigma_defaults (bg : Image) (fs : ℤ) (ft : Font)
    (ls : Option ℤ) (fl : Option Fill) (lm tm rm bm ws : ℤ) (ec : String)
    (s1 s2 s3 s4 s5 pts : ℚ) :
    (let t := Template.init bg fs ft ls fl lm tm rm bm ws none none none ec
        none none _DEFAULT_PERTURB_THETA_SIGMA
     t.get_line_spacing_sigma = (fs : ℚ) / 32
       ∧ t.get_font_size_sigma = (fs : ℚ) / 64
       ∧ t.get_word_spacing_sigma = (fs : ℚ) / 32
       ∧ t.get_perturb_x_sigma = (fs : ℚ) / 32
       ∧ t.get_perturb_y_sigma = (fs : ℚ) / 32
       ∧ t.get_perturb_theta_sigma = 7 / 100)
    ∧ (let t2 := Template.init bg fs ft ls fl lm tm rm bm ws (some s1)
          (some s2) (some s3) ec (some s4) (some s5) pts
       t2.get_line_spacing_sigma = s1
         ∧ t2.get_font_size_sigma = s2
         ∧ t2.get_word_spacing_sigma = s3
         ∧ t2.get_perturb_x_sigma = s4
         ∧ t2.get_perturb_y_sigma = s5
         ∧ t2.get_perturb_theta_sigma = pts) := by
  simp only [Template.init_spec]
  exact ⟨⟨rfl, rfl, rfl, rfl, rfl, rfl⟩, ⟨rfl, rfl, rfl, rfl, rfl, rfl⟩⟩

/-- C6: constructing with `line_spacing` unset makes `get_line_spacing`
return the same value as `get_font_size`; an explicit `line_spacing` is
returned unchanged. -/
theorem init_line_spacing_default (bg : Image) (fs : ℤ) (ft : Font)
    (fl : Option Fill) (lm tm rm bm ws : ℤ) (lss fss wss : Option ℚ)
    (ec : String) (pxs pys : Option ℚ) (pts : ℚ) (v : ℤ) :
    (Template.init bg fs ft none fl lm tm rm bm ws lss fss wss ec pxs pys
          pts).get_line_spacing
        = (Template.init bg fs ft none fl lm tm rm bm ws lss fss wss ec pxs
            pys pts).get_font_size
      ∧ (Template.init bg fs ft (some v) fl lm tm rm bm ws lss fss wss ec
          pxs pys pts).get_line_spacing = v := by
  rw [Template.init_spec, Template.init_spec]
  exact ⟨rfl, rfl⟩

/-- C7: `get_size()` returns exactly the pixel dimensions of the
background image currently held by the template, i.e. it equals
`get_background().size`; in particular, on a freshly constructed
template it is the size of the background that was passed in. -/
theorem get_size_eq_background_size (t : Template) (bg : Image) (fs : ℤ)
    (ft : Font) (ls : Option ℤ) (fl : Option Fill) (lm tm rm bm ws : ℤ)
    (lss fss wss : Option ℚ) (ec : String) (pxs pys : Option ℚ) (pts : ℚ) :
    t.get_size = t.get_background.size
      ∧ (Template.init bg fs ft ls fl lm tm rm bm ws lss fss wss ec pxs pys
          pts).get_size = bg.size := by
  refine ⟨rfl, ?_⟩
  rw [Template.init_spec]
  rfl

/-- C1 counterexample: with `font_size = 10` and `word_spacing = -5`
the claimed bound is violated (`-5 ≤ (-10) // 2 = -5` under Python
floor division), yet construction succeeds and stores the value — no
`InvalidParameter` failure exists on this path. -/
theorem word_spacing_validation_counterexample :
    ¬ ((-5 : ℤ) > Int.fdiv (-10) 2)
      ∧ (Template.init sampleImage 10 0 none none 0 0 0 0 (-5) none none
          none _DEFAULT_END_CHARS none none
          _DEFAULT_PERTURB_THETA_SIGMA).get_word_spacing = -5 := by
  exact ⟨by decide, rfl⟩

/-- C1 (amended): the constructor and `set_word_spacing` accept every
`word_spacing` value and store it unchanged; the source performs no
validation against `-font_size // 2` and never fails (both operations
are total, since the source raises nothing). -/
theorem word_spacing_stored_unconditionally (bg : Image) (fs : ℤ)
    (ft : Font) (ls : Option ℤ) (fl : Option Fill) (lm tm rm bm ws : ℤ)
    (lss fss wss : Option ℚ) (ec : String) (pxs pys : Option ℚ) (pts : ℚ)
    (t : Template) (w : ℤ) :
    (Template.init bg fs ft ls fl lm tm rm bm ws lss fss wss ec pxs pys
        pts).get_word_spacing = ws
      ∧ (t.set_word_spacing w).get_word_spacing = w := by
  rw [Template.init_spec]
  exact ⟨rfl, rfl⟩

/-- C2 counterexample: a negative left margin and a negative
line-spacing sigma are accepted by the setters and by the constructor
and simply stored; nothing is ever raised at construction or
mutation. -/
theorem margin_sigma_validation_counterexample :
    ((-1 : ℤ) < 0
        ∧ (sampleTemplate.set_left_margin (-1)).get_left_margin = -1)
      ∧ ((-1 : ℚ) < 0
        ∧ (sampleTemplate.set_line_spacing_sigma
            (some (-1))).get_line_spacing_sigma = -1)
      ∧ (Template.init sampleImage 10 0 none none (-1) 0 0 0 0
          (some (-1)) none none _DEFAULT_END_CHARS none none
          _DEFAULT_PERTURB_THETA_SIGMA).get_left_margin = -1
      ∧ (Template.init sampleImage 10 0 none none (-1) 0 0 0 0
          (some (-1)) none none _DEFAULT_END_CHARS none none
          _DEFAULT_PERTURB_THETA_SIGMA).get_line_spacing_sigma = -1 := by
  exact ⟨⟨by decide, rfl⟩, ⟨by norm_num, rfl⟩, rfl, rfl⟩

/-- C2 (amended): margins and sigmas are stored unchanged by the
constructor and by the corresponding setters for every value —
including negative margins, margins exceeding the background size and
negative sigmas; the source performs no range validation and never
fails, so there is nothing to defer to rendering. -/
theorem margins_and_sigmas_stored_unconditionally (bg : Image) (fs : ℤ)
    (ft : Font) (ls : Option ℤ) (fl : Option Fill) (lm tm rm bm ws : ℤ)
    (s1 s2 s3 s4 s5 : ℚ) (ec : String) (pts : ℚ) (t : Template)
    (m : ℤ) (s : ℚ) :
    ((Template.init bg fs ft ls fl lm tm rm bm ws (some s1) (some s2)
          (some s3) ec (some s4) (some s5) pts).get_left_margin = lm
      ∧ (Template.init bg fs ft ls fl lm tm rm bm ws (some s1) (some s2)
          (some s3) ec (some s4) (some s5) pts).get_top_margin = tm
      ∧ (Template.init bg fs ft ls fl lm tm rm bm ws (some s1) (some s2)
          (some s3) ec (some s4) (some s5) pts).get_right_margin = rm
      ∧ (Template.init bg fs ft ls fl lm tm rm bm ws (some s1) (some s2)
          (some s3) ec (some s4) (some s5) pts).get_bottom_margin = bm
      ∧ (Template.init bg fs ft ls fl lm tm rm bm ws (some s1) (some s2)
          (some s3) ec (some s4) (some s5) pts).get_line_spacing_sigma = s1
      ∧ (Template.init bg fs ft ls fl lm tm rm bm ws (some s1) (some s2)
          (some s3) ec (some s4) (some s5) pts).get_font_size_sigma = s2
      ∧ (Template.init bg fs ft ls fl lm tm rm bm ws (some s1) (some s2)
          (some s3) ec (some s4) (some s5) pts).get_word_spacing_sigma = s3
      ∧ (Template.init bg fs ft ls fl lm tm rm bm ws (some s1) (some s2)
          (some s3) ec (some s4) (some s5) pts).get_perturb_x_sigma = s4
      ∧ (Template.init bg fs ft ls fl lm tm rm bm ws (some s1) (some s2)
          (some s3) ec (some s4) (some s5) pts).get_perturb_y_sigma = s5)
      ∧ ((t.set_left_margin m).get_left_margin = m
        ∧ (t.set_top_margin m).get_top_margin = m
        ∧ (t.set_right_margin m).get_right_margin = m
        ∧ (t.set_bottom_margin m).get_bottom_margin = m
        ∧ (t.set_line_spacing_sigma (some s)).get_line_spacing_sigma = s
        ∧ (t.set_font_size_sigma (some s)).get_font_size_sigma = s
        ∧ (t.set_word_spacing_sigma (some s)).get_word_spacing_sigma = s
        ∧ (t.set_perturb_x_sigma (some s)).get_perturb_x_sigma = s
        ∧ (t.set_perturb_y_sigma (some s)).get_perturb_y_sigma = s) := by
  rw [Template.init_spec]
  exact ⟨⟨rfl, rfl, rfl, rfl, rfl, rfl, rfl, rfl, rfl⟩,
    ⟨rfl, rfl, rfl, rfl, rfl, rfl, rfl, rfl, rfl⟩⟩

/-- C3: two templates are `__eq__`-equal iff every field accessor
returns equal values pairwise; and constructing two templates from
identical explicit arguments yields objects that compare equal. -/
theorem template_eq_iff_getters :
    (∀ t1 t2 : Template, Template.eq t1 t2 = true ↔
        (t1.get_background = t2.get_background
          ∧ t1.get_line_spacing = t2.get_line_spacing
          ∧ t1.get_line_spacing_sigma = t2.get_line_spacing_sigma
          ∧ t1.get_font_size = t2.get_font_size
          ∧ t1.get_font_size_sigma = t2.get_font_size_sigma
          ∧ t1.get_font = t2.get_font
          ∧ t1.get_fill = t2.get_fill
          ∧ t1.get_left_margin = t2.get_left_margin
          ∧ t1.get_top_margin = t2.get_top_margin
          ∧ t1.get_right_margin = t2.get_right_margin
          ∧ t1.get_bottom_margin = t2.get_bottom_margin
          ∧ t1.get_word_spacing = t2.get_word_spacing
          ∧ t1.get_word_spacing_sigma = t2.get_word_spacing_sigma
          ∧ t1.get_end_chars = t2.get_end_chars
          ∧ t1.get_perturb_x_sigma = t2.get_perturb_x_sigma
          ∧ t1.get_perturb_y_sigma = t2.get_perturb_y_sigma
          ∧ t1.get_perturb_theta_sigma = t2.get_perturb_theta_sigma))
      ∧ (∀ (bg : Image) (fs : ℤ) (ft : Font) (ls : Option ℤ)
          (fl : Option Fill) (lm tm rm bm ws : ℤ) (lss fss wss : Option ℚ)
          (ec : String) (pxs pys : Option ℚ) (pts : ℚ),
          Template.eq
            (Template.init bg fs ft ls fl lm tm rm bm ws lss fss wss ec
              pxs pys pts)
            (Template.init bg fs ft ls fl lm tm rm bm ws lss fss wss ec
              pxs pys pts) = true) := by
  constructor
  · intro t1 t2
    simp [Template.eq, and_assoc]
  · intro bg fs ft ls fl lm tm rm bm ws lss fss wss ec pxs pys pts
    exact Template.eq_refl _

/-- C4 counterexample: a template constructed with font size 32 and
every derivable field unset stores `line_spacing = 32` and
`line_spacing_sigma = 32/32`; after `set_font_size 64` those stored
values are unchanged — they are not recomputed to `64` and `64/32`
as the claim requires. -/
theorem set_font_size_recompute_counterexample :
    ((sampleTemplate32.set_font_size 64).get_line_spacing_sigma
          = (32 : ℚ) / 32
        ∧ (32 : ℚ) / 32 ≠ (64 : ℚ) / 32)
      ∧ ((sampleTemplate32.set_font_size 64).get_line_spacing = 32
        ∧ (32 : ℤ) ≠ 64) := by
  exact ⟨⟨rfl, by norm_num⟩, ⟨rfl, by decide⟩⟩

/-- C4 (amended): `set_font_size` stores only the font size; every
field whose default was derived at the time it was last set keeps its
stored value, however it was produced.  A derived field is recomputed
from the new font size only when its own setter is subsequently called
with `None`. -/
theorem set_font_size_stores_only_font_size (t : Template) (f2 : ℤ) :
    (t.set_font_size f2).get_font_size = f2
      ∧ (t.set_font_size f2).get_line_spacing = t.get_line_spacing
      ∧ (t.set_font_size f2).get_line_spacing_sigma
          = t.get_line_spacing_sigma
      ∧ (t.set_font_size f2).get_font_size_sigma = t.get_font_size_sigma
      ∧ (t.set_font_size f2).get_word_spacing_sigma
          = t.get_word_spacing_sigma
      ∧ (t.set_font_size f2).get_perturb_x_sigma = t.get_perturb_x_sigma
      ∧ (t.set_font_size f2).get_perturb_y_sigma = t.get_perturb_y_sigma
      ∧ ((t.set_font_size f2).set_line_spacing none).get_line_spacing = f2
      ∧ ((t.set_font_size f2).set_line_spacing_sigma
          none).get_line_spacing_sigma = (f2 : ℚ) / 32
      ∧ ((t.set_font_size f2).set_font_size_sigma
          none).get_font_size_sigma = (f2 : ℚ) / 64
      ∧ ((t.set_font_size f2).set_word_spacing_sigma
          none).get_word_spacing_sigma = (f2 : ℚ) / 32
      ∧ ((t.set_font_size f2).set_perturb_x_sigma
          none).get_perturb_x_sigma = (f2 : ℚ) / 32
      ∧ ((t.set_font_size f2).set_perturb_y_sigma
          none).get_perturb_y_sigma = (f2 : ℚ) / 32 := by
  exact ⟨rfl, rfl, rfl, rfl, rfl, rfl, rfl, rfl, rfl, rfl, rfl, rfl, rfl⟩

/-- C8: `set_fill` with `None` derives the fill from the background's
mode — the scalar `0` when the mode has exactly one band, a tuple of
`n` zeros when it has `n > 1` bands — while a non-`None` fill is
stored unchanged with no cross-check against the mode. -/
theorem set_fill_default_from_mode (t : Template) (n : ℕ) (f : Fill)
    (hn : count_bands t.get_background.mode = n) :
    (n = 1 → (t.set_fill none).get_fill = Fill.scalar 0)
      ∧ (1 < n →
          (t.set_fill none).get_fill = Fill.tup (List.replicate n 0))
      ∧ (t.set_fill (some f)).get_fill = f := by
  subst hn
  refine ⟨?_, ?_, rfl⟩
  · intro h1
    simp [Template.set_fill, Template.get_fill, Template.get_background]
          at h1 ⊢
    simp [h1]
  · intro h2
    have hne : ¬ count_bands t.get_background.mode = 1 := by omega
    simp [Template.get_background] at hne
    simp [Template.set_fill, Template.get_fill, Template.get_background,
      hne]

/-- Witness for C8: on the single-band sample the derived fill is the
scalar `0`; on the three-band sample it is a tuple of three zeros; an
explicit fill is stored unchanged. -/
theorem set_fill_default_from_mode_witness :
    (sampleTemplate.set_fill none).get_fill = Fill.scalar 0
      ∧ (sampleRGBTemplate.set_fill none).get_fill
          = Fill.tup (List.replicate 3 0)
      ∧ (sampleTemplate.set_fill (some (Fill.scalar 7))).get_fill
          = Fill.scalar 7 := by
  refine ⟨?_, ?_, ?_⟩
  · exact (set_fill_default_from_mode sampleTemplate 1 (Fill.scalar 0)
      (by decide)).1 rfl
  · exact (set_fill_default_from_mode sampleRGBTemplate 3 (Fill.scalar 0)
      (by decide)).2.1 (by decide)
  · exact (set_fill_default_from_mode sampleTemplate 1 (Fill.scalar 7)
      (by decide)).2.2

/-- C9: each non-derived setter modifies only its own field — after
the call its own getter returns the new value and every other getter
returns exactly the value it returned before the call. -/
theorem setters_modify_only_own_field (t : Template) (bg2 : Image)
    (ft2 : Font) (m1 m2 m3 m4 w2 : ℤ) (e2 : String) (p2 : ℚ) :
    ((t.set_background bg2).get_background = bg2
        ∧ (t.set_background bg2).get_line_spacing = t.get_line_spacing
        ∧ (t.set_background bg2).get_line_spacing_sigma = t.get_line_spacing_sigma
        ∧ (t.set_background bg2).get_font_size = t.get_font_size
        ∧ (t.set_background bg2).get_font_size_sigma = t.get_font_size_sigma
        ∧ (t.set_background bg2).get_font = t.get_font
        ∧ (t.set_background bg2).get_fill = t.get_fill
        ∧ (t.set_background bg2).get_left_margin = t.get_left_margin
        ∧ (t.set_background bg2).get_top_margin = t.get_top_margin
        ∧ (t.set_background bg2).get_right_margin = t.get_right_margin
        ∧ (t.set_background bg2).get_bottom_margin = t.get_bottom_margin
        ∧ (t.set_background bg2).get_word_spacing = t.get_word_spacing
        ∧ (t.set_background bg2).get_word_spacing_sigma = t.get_word_spacing_sigma
        ∧ (t.set_background bg2).get_end_chars = t.get_end_chars
        ∧ (t.set_background bg2).get_perturb_x_sigma = t.get_perturb_x_sigma
        ∧ (t.set_background bg2).get_perturb_y_sigma = t.get_perturb_y_sigma
        ∧ (t.set_background bg2).get_perturb_theta_sigma = t.get_perturb_theta_sigma)
      ∧ ((t.set_font ft2).get_font = ft2
        ∧ (t.set_font ft2).get_background = t.get_background
        ∧ (t.set_font ft2).get_line_spacing = t.get_line_spacing
        ∧ (t.set_font ft2).get_line_spacing_sigma = t.get_line_spacing_sigma
        ∧ (t.set_font ft2).get_font_size = t.get_font_size
        ∧ (t.set_font ft2).get_font_size_sigma = t.get_font_size_sigma
        ∧ (t.set_font ft2).get_fill = t.get_fill
        ∧ (t.set_font ft2).get_left_margin = t.get_left_margin
        ∧ (t.set_font ft2).get_top_margin = t.get_top_margin
        ∧ (t.set_font ft2).get_right_margin = t.get_right_margin
        ∧ (t.set_font ft2).get_bottom_margin = t.get_bottom_margin
        ∧ (t.set_font ft2).get_word_spacing = t.get_word_spacing
        ∧ (t.set_font ft2).get_word_spacing_sigma = t.get_word_spacing_sigma
        ∧ (t.set_font ft2).get_end_chars = t.get_end_chars
        ∧ (t.set_font ft2).get_perturb_x_sigma = t.get_perturb_x_sigma
        ∧ (t.set_font ft2).get_perturb_y_sigma = t.get_perturb_y_sigma
        ∧ (t.set_font ft2).get_perturb_theta_sigma = t.get_perturb_theta_sigma)
      ∧ ((t.set_left_margin m1).get_left_margin = m1
        ∧ (t.set_left_margin m1).get_background = t.get_background
        ∧ (t.set_left_margin m1).get_line_spacing = t.get_line_spacing
        ∧ (t.set_left_margin m1).get_line_spacing_sigma = t.get_line_spacing_sigma
        ∧ (t.set_left_margin m1).get_font_size = t.get_font_size
        ∧ (t.set_left_margin m1).get_font_size_sigma = t.get_font_size_sigma
        ∧ (t.set_left_margin m1).get_font = t.get_font
        ∧ (t.set_left_margin m1).get_fill = t.get_fill
        ∧ (t.set_left_margin m1).get_top_margin = t.get_top_margin
        ∧ (t.set_left_margin m1).get_right_margin = t.get_right_margin
        ∧ (t.set_left_margin m1).get_bottom_margin = t.get_bottom_margin
        ∧ (t.set_left_margin m1).get_word_spacing = t.get_word_spacing
        ∧ (t.set_left_margin m1).get_word_spacing_sigma = t.get_word_spacing_sigma
        ∧ (t.set_left_margin m1).get_end_chars = t.get_end_chars
        ∧ (t.set_left_margin m1).get_perturb_x_sigma = t.get_perturb_x_sigma
        ∧ (t.set_left_margin m1).get_perturb_y_sigma = t.get_perturb_y_sigma
        ∧ (t.set_left_margin m1).get_perturb_theta_sigma = t.get_perturb_theta_sigma)
      ∧ ((t.set_top_margin m2).get_top_margin = m2
        ∧ (t.set_top_margin m2).get_background = t.get_background
        ∧ (t.set_top_margin m2).get_line_spacing = t.get_line_spacing
        ∧ (t.set_top_margin m2).get_line_spacing_sigma = t.get_line_spacing_sigma
        ∧ (t.set_top_margin m2).get_font_size = t.get_font_size
        ∧ (t.set_top_margin m2).get_font_size_sigma = t.get_font_size_sigma
        ∧ (t.set_top_margin m2).get_font = t.get_font
        ∧ (t.set_top_margin m2).get_fill = t.get_fill
        ∧ (t.set_top_margin m2).get_left_margin = t.get_left_margin
        ∧ (t.set_top_margin m2).get_right_margin = t.get_right_margin
        ∧ (t.set_top_margin m2).get_bottom_margin = t.get_bottom_margin
        ∧ (t.set_top_margin m2).get_word_spacing = t.get_word_spacing
        ∧ (t.set_top_margin m2).get_word_spacing_sigma = t.get_word_spacing_sigma
        ∧ (t.set_top_margin m2).get_end_chars = t.get_end_chars
        ∧ (t.set_top_margin m2).get_perturb_x_sigma = t.get_perturb_x_sigma
        ∧ (t.set_top_margin m2).get_perturb_y_sigma = t.get_perturb_y_sigma
        ∧ (t.set_top_margin m2).get_perturb_theta_sigma = t.get_perturb_theta_sigma)
      ∧ ((t.set_right_margin m3).get_right_margin = m3
        ∧ (t.set_right_margin m3).get_background = t.get_background
        ∧ (t.set_right_margin m3).get_line_spacing = t.get_line_spacing
        ∧ (t.set_right_margin m3).get_line_spacing_sigma = t.get_line_spacing_sigma
        ∧ (t.set_right_margin m3).get_font_size = t.get_font_size
        ∧ (t.set_right_margin m3).get_font_size_sigma = t.get_font_size_sigma
        ∧ (t.set_right_margin m3).get_font = t.get_font
        ∧ (t.set_right_margin m3).get_fill = t.get_fill
        ∧ (t.set_right_margin m3).get_left_margin = t.get_left_margin
        ∧ (t.set_right_margin m3).get_top_margin = t.get_top_margin
        ∧ (t.set_right_margin m3).get_bottom_margin = t.get_bottom_margin
        ∧ (t.set_right_margin m3).get_word_spacing = t.get_word_spacing
        ∧ (t.set_right_margin m3).get_word_spacing_sigma = t.get_word_spacing_sigma
        ∧ (t.set_right_margin m3).get_end_chars = t.get_end_chars
        ∧ (t.set_right_margin m3).get_perturb_x_sigma = t.get_perturb_x_sigma
        ∧ (t.set_right_margin m3).get_perturb_y_sigma = t.get_perturb_y_sigma
        ∧ (t.set_right_margin m3).get_perturb_theta_sigma = t.get_perturb_theta_sigma)
      ∧ ((t.set_bottom_margin m4).get_bottom_margin = m4
        ∧ (t.set_bottom_margin m4).get_background = t.get_background
        ∧ (t.set_bottom_margin m4).get_line_spacing = t.get_line_spacing
        ∧ (t.set_bottom_margin m4).get_line_spacing_sigma = t.get_line_spacing_sigma
        ∧ (t.set_bottom_margin m4).get_font_size = t.get_font_size
        ∧ (t.set_bottom_margin m4).get_font_size_sigma = t.get_font_size_sigma
        ∧ (t.set_bottom_margin m4).get_font = t.get_font
        ∧ (t.set_bottom_margin m4).get_fill = t.get_fill
        ∧ (t.set_bottom_margin m4).get_left_margin = t.get_left_margin
        ∧ (t.set_bottom_margin m4).get_top_margin = t.get_top_margin
        ∧ (t.set_bottom_margin m4).get_right_margin = t.get_right_margin
        ∧ (t.set_bottom_margin m4).get_word_spacing = t.get_word_spacing
        ∧ (t.set_bottom_margin m4).get_word_spacing_sigma = t.get_word_spacing_sigma
        ∧ (t.set_bottom_margin m4).get_end_chars = t.get_end_chars
        ∧ (t.set_bottom_margin m4).get_perturb_x_sigma = t.get_perturb_x_sigma
        ∧ (t.set_bottom_margin m4).get_perturb_y_sigma = t.get_perturb_y_sigma
        ∧ (t.set_bottom_margin m4).get_perturb_theta_sigma = t.get_perturb_theta_sigma)
      ∧ ((t.set_word_spacing w2).get_word_spacing = w2
        ∧ (t.set_word_spacing w2).get_background = t.get_background
        ∧ (t.set_word_spacing w2).get_line_spacing = t.get_line_spacing
        ∧ (t.set_word_spacing w2).get_line_spacing_sigma = t.get_line_spacing_sigma
        ∧ (t.set_word_spacing w2).get_font_size = t.get_font_size
        ∧ (t.set_word_spacing w2).get_font_size_sigma = t.get_font_size_sigma
        ∧ (t.set_word_spacing w2).get_font = t.get_font
        ∧ (t.set_word_spacing w2).get_fill = t.get_fill
        ∧ (t.set_word_spacing w2).get_left_margin = t.get_left_margin
        ∧ (t.set_word_spacing w2).get_top_margin = t.get_top_margin
        ∧ (t.set_word_spacing w2).get_right_margin = t.get_right_margin
        ∧ (t.set_word_spacing w2).get_bottom_margin = t.get_bottom_margin
        ∧ (t.set_word_spacing w2).get_word_spacing_sigma = t.get_word_spacing_sigma
        ∧ (t.set_word_spacing w2).get_end_chars = t.get_end_chars
        ∧ (t.set_word_spacing w2).get_perturb_x_sigma = t.get_perturb_x_sigma
        ∧ (t.set_word_spacing w2).get_perturb_y_sigma = t.get_perturb_y_sigma
        ∧ (t.set_word_spacing w2).get_perturb_theta_sigma = t.get_perturb_theta_sigma)
      ∧ ((t.set_end_chars e2).get_end_chars = e2
        ∧ (t.set_end_chars e2).get_background = t.get_background
        ∧ (t.set_end_chars e2).get_line_spacing = t.get_line_spacing
        ∧ (t.set_end_chars e2).get_line_spacing_sigma = t.get_line_spacing_sigma
        ∧ (t.set_end_chars e2).get_font_size = t.get_font_size
        ∧ (t.set_end_chars e2).get_font_size_sigma = t.get_font_size_sigma
        ∧ (t.set_end_chars e2).get_font = t.get_font
        ∧ (t.set_end_chars e2).get_fill = t.get_fill
        ∧ (t.set_end_chars e2).get_left_margin = t.get_left_margin
        ∧ (t.set_end_chars e2).get_top_margin = t.get_top_margin
        ∧ (t.set_end_chars e2).get_right_margin = t.get_right_margin
        ∧ (t.set_end_chars e2).get_bottom_margin = t.get_bottom_margin
        ∧ (t.set_end_chars e2).get_word_spacing = t.get_word_spacing
        ∧ (t.set_end_chars e2).get_word_spacing_sigma = t.get_word_spacing_sigma
        ∧ (t.set_end_chars e2).get_perturb_x_sigma = t.get_perturb_x_sigma
        ∧ (t.set_end_chars e2).get_perturb_y_sigma = t.get_perturb_y_sigma
        ∧ (t.set_end_chars e2).get_perturb_theta_sigma = t.get_perturb_theta_sigma)
      ∧ ((t.set_perturb_theta_sigma p2).get_perturb_theta_sigma = p2
        ∧ (t.set_perturb_theta_sigma p2).get_background = t.get_background
        ∧ (t.set_perturb_theta_sigma p2).get_line_spacing = t.get_line_spacing
        ∧ (t.set_perturb_theta_sigma p2).get_line_spacing_sigma = t.get_line_spacing_sigma
        ∧ (t.set_perturb_theta_sigma p2).get_font_size = t.get_font_size
        ∧ (t.set_perturb_theta_sigma p2).get_font_size_sigma = t.get_font_size_sigma
        ∧ (t.set_perturb_theta_sigma p2).get_font = t.get_font
        ∧ (t.set_perturb_theta_sigma p2).get_fill = t.get_fill
        ∧ (t.set_perturb_theta_sigma p2).get_left_margin = t.get_left_margin
        ∧ (t.set_perturb_theta_sigma p2).get_top_margin = t.get_top_margin
        ∧ (t.set_perturb_theta_sigma p2).get_right_margin = t.get_right_margin
        ∧ (t.set_perturb_theta_sigma p2).get_bottom_margin = t.get_bottom_margin
        ∧ (t.set_perturb_theta_sigma p2).get_word_spacing = t.get_word_spacing
        ∧ (t.set_perturb_theta_sigma p2).get_word_spacing_sigma = t.get_word_spacing_sigma
        ∧ (t.set_perturb_theta_sigma p2).get_end_chars = t.get_end_chars
        ∧ (t.set_perturb_theta_sigma p2).get_perturb_x_sigma = t.get_perturb_x_sigma
        ∧ (t.set_perturb_theta_sigma p2).get_perturb_y_sigma = t.get_perturb_y_sigma) := by
  exact ⟨⟨rfl, rfl, rfl, rfl, rfl, rfl, rfl, rfl, rfl, rfl, rfl, rfl, rfl, rfl, rfl, rfl, rfl⟩, ⟨rfl, rfl, rfl, rfl, rfl, rfl, rfl, rfl, rfl, rfl, rfl, rfl, rfl, rfl, rfl, rfl, rfl⟩, ⟨rfl, rfl, rfl, rfl, rfl, rfl, rfl, rfl, rfl, rfl, rfl, rfl, rfl, rfl, rfl, rfl, rfl⟩, ⟨rfl, rfl, rfl, rfl, rfl, rfl, rfl, rfl, rfl, rfl, rfl, rfl, rfl, rfl, rfl, rfl, rfl⟩, ⟨rfl, rfl, rfl, rfl, rfl, rfl, rfl, rfl, rfl, rfl, rfl, rfl, rfl, rfl, rfl, rfl, rfl⟩, ⟨rfl, rfl, rfl, rfl, rfl, rfl, rfl, rfl, rfl, rfl, rfl, rfl, rfl, rfl, rfl, rfl, rfl⟩, ⟨rfl, rfl, rfl, rfl, rfl, rfl, rfl, rfl, rfl, rfl, rfl, rfl, rfl, rfl, rfl, rfl, rfl⟩, ⟨rfl, rfl, rfl, rfl, rfl, rfl, rfl, rfl, rfl, rfl, rfl, rfl, rfl, rfl, rfl, rfl, rfl⟩, ⟨rfl, rfl, rfl, rfl, rfl, rfl, rfl, rfl, rfl, rfl, rfl, rfl, rfl, rfl, rfl, rfl, rfl⟩⟩

/-- An object reference: an address into the object heap. -/
structure Ref where
  addr : ℕ
deriving DecidableEq

/-- Object heap: cell `i` holds the `Template` object at address `i`.
Python objects are mutable and aliased, so `copy.copy` semantics is
modelled with this explicit heap. -/
abbrev Heap := List Template

/-- Dereferences an object.  Out-of-range addresses — never reached in
the statements below — give the placeholder. -/
def heapGet (h : Heap) (r : Ref) : Template :=
  h.getD r.addr placeholderTemplate

/-- Attribute assignment on the object at `r`: a Python setter call
`obj.set_X(args)` on the object at address `r` is
`heapSet h r (Template.set_X (heapGet h r) args)`; the statements
below quantify over the written value, which covers every setter. -/
def heapSet (h : Heap) (r : Ref) (t : Template) : Heap :=
  h.set r.addr t

/-- Embeds `copy_templates(templates) = tuple(map(copy.copy, templates))`:
`copy.copy` allocates a fresh object — here the next free address —
and copies the attribute values of the argument into it. -/
def copy_templates (h : Heap) (rs : List Ref) : Heap × List Ref :=
  match rs with
  | [] => (h, [])
  | r :: rest =>
      let h2 := h ++ [heapGet h r]
      let c : Ref := ⟨h.length⟩
      let p := copy_templates h2 rest
      (p.1, c :: p.2)

/-- Helper: `copy_templates` returns as many references as it was
given. -/
theorem copy_templates_snd_length (h : Heap) (rs : List Ref) :
    (copy_templates h rs).2.length = rs.length := by
  induction rs generalizing h with
  | nil => rfl
  | cons r rest ih => simp [copy_templates, ih]

/-- Helper: appending a cell does not change existing cells. -/
theorem heapGet_append (h : Heap) (x : Template) (r : Ref)
    (hr : r.addr < h.length) : heapGet (h ++ [x]) r = heapGet h r := by
  simp [heapGet, List.getD, List.getElem?_append_left hr]

/-- Helper: `copy_templates` only allocates; it never writes an
existing cell. -/
theorem copy_templates_fst_preserves (rs : List Ref) :
    ∀ (h : Heap) (r : Ref), r.addr < h.length →
      heapGet (copy_templates h rs).1 r = heapGet h r := by
  induction rs with
  | nil => intro h r hr; rfl
  | cons r2 rest ih =>
      intro h r hr
      show heapGet (copy_templates (h ++ [heapGet h r2]) rest).1 r
          = heapGet h r
      rw [ih (h ++ [heapGet h r2]) r (by simp; omega)]
      exact heapGet_append h _ r hr

/-- Helper: the `i`-th copy is allocated at address
`h.length + i`, beyond every pre-existing address. -/
theorem copy_templates_addr (rs : List Ref) :
    ∀ (h : Heap) (i : ℕ), i < rs.length →
      ((copy_templates h rs).2.getD i ⟨0⟩).addr = h.length + i := by
  induction rs with
  | nil => intro h i hi; simp at hi
  | cons r rest ih =>
      intro h i hi
      cases i with
      | zero => rfl
      | succ i =>
          show ((copy_templates (h ++ [heapGet h r]) rest).2.getD i
              ⟨0⟩).addr = h.length + (i + 1)
          rw [ih (h ++ [heapGet h r]) i (Nat.lt_of_succ_lt_succ hi)]
          simp
          omega

/-- Helper: the `i`-th copy holds exactly the attribute values the
`i`-th original held before the call. -/
theorem copy_templates_val (rs : List Ref) :
    ∀ (h : Heap), (∀ r ∈ rs, r.addr < h.length) →
      ∀ i, i < rs.length →
        heapGet (copy_templates h rs).1
            ((copy_templates h rs).2.getD i ⟨0⟩)
          = heapGet h (rs.getD i ⟨0⟩) := by
  induction rs with
  | nil => intro h hv i hi; simp at hi
  | cons r rest ih =>
      intro h hv i hi
      cases i with
      | zero =>
          show heapGet (copy_templates (h ++ [heapGet h r]) rest).1
              ⟨h.length⟩ = heapGet h r
          rw [copy_templates_fst_preserves rest (h ++ [heapGet h r])
            ⟨h.length⟩ (by simp)]
          simp [heapGet, List.getD]
      | succ i =>
          have hv2 : ∀ r2 ∈ rest, r2.addr < (h ++ [heapGet h r]).length := by
            intro r2 hr2
            have := hv r2 (List.mem_cons_of_mem r hr2)
            simp
            omega
          have hi2 : i < rest.length := Nat.lt_of_succ_lt_succ hi
          have hrmem : (rest.getD i ⟨0⟩).addr < h.length := by
            refine hv _ (List.mem_cons_of_mem r ?_)
            rw [List.getD_eq_getElem rest _ hi2]
            exact List.getElem_mem hi2
          show heapGet (copy_templates (h ++ [heapGet h r]) rest).1
              ((copy_templates (h ++ [heapGet h r]) rest).2.getD i ⟨0⟩)
            = heapGet h (rest.getD i ⟨0⟩)
          rw [ih (h ++ [heapGet h r]) hv2 i hi2]
          exact heapGet_append h _ _ hrmem

/-- Helper: writing one cell leaves every other cell unchanged. -/
theorem heapGet_heapSet_ne (h : Heap) (r1 r2 : Ref) (t : Template)
    (hne : r1.addr ≠ r2.addr) :
    heapGet (heapSet h r1 t) r2 = heapGet h r2 := by
  simp [heapGet, heapSet, List.getD, List.getElem?_set_ne hne]

/-- C10: `copy_templates` returns as many references as it was given;
the `i`-th result is a distinct object (a different address) whose
attribute values compare `__eq__`-equal to the `i`-th input's; and
writing any value into a returned copy — which is what every setter
call on the copy does — leaves every original object, hence every
getter of it, unchanged. -/
theorem copy_templates_spec (h : Heap) (rs : List Ref)
    (hv : ∀ r ∈ rs, r.addr < h.length) :
    ((copy_templates h rs).2.length = rs.length)
      ∧ (∀ i, i < rs.length →
          ((copy_templates h rs).2.getD i ⟨0⟩).addr
              ≠ (rs.getD i ⟨0⟩).addr
            ∧ Template.eq
                (heapGet (copy_templates h rs).1
                  ((copy_templates h rs).2.getD i ⟨0⟩))
                (heapGet h (rs.getD i ⟨0⟩)) = true)
      ∧ (∀ j, j < rs.length → ∀ t2 : Template, ∀ i, i < rs.length →
          heapGet
              (heapSet (copy_templates h rs).1
                ((copy_templates h rs).2.getD j ⟨0⟩) t2)
              (rs.getD i ⟨0⟩)
            = heapGet h (rs.getD i ⟨0⟩)) := by
  have hmem : ∀ i, i < rs.length → (rs.getD i ⟨0⟩).addr < h.length := by
    intro i hi
    refine hv _ ?_
    rw [List.getD_eq_getElem rs _ hi]
    exact List.getElem_mem hi
  refine ⟨copy_templates_snd_length h rs, ?_, ?_⟩
  · intro i hi
    constructor
    · rw [copy_templates_addr rs h i hi]
      have := hmem i hi
      omega
    · rw [copy_templates_val rs h hv i hi]
      exact Template.eq_refl _
  · intro j hj t2 i hi
    rw [heapGet_heapSet_ne]
    · exact copy_templates_fst_preserves rs h _ (hmem i hi)
    · rw [copy_templates_addr rs h j hj]
      have := hmem i hi
      omega

/-- Witness for C10 on a one-object heap: the copy list has length
one, the copy lives at a fresh address, and overwriting the copy
leaves the original object unchanged. -/
theorem copy_templates_spec_witness :
    ((copy_templates [sampleTemplate] [Ref.mk 0]).2.length
        = ([Ref.mk 0] : List Ref).length)
      ∧ ((copy_templates [sampleTemplate] [Ref.mk 0]).2.getD 0
            ⟨0⟩).addr ≠ (([Ref.mk 0] : List Ref).getD 0 ⟨0⟩).addr
      ∧ heapGet
            (heapSet (copy_templates [sampleTemplate] [Ref.mk 0]).1
              ((copy_templates [sampleTemplate] [Ref.mk 0]).2.getD 0 ⟨0⟩)
              placeholderTemplate)
            (([Ref.mk 0] : List Ref).getD 0 ⟨0⟩)
          = heapGet [sampleTemplate] (([Ref.mk 0] : List Ref).getD 0 ⟨0⟩) := by
  have hv : ∀ r ∈ ([Ref.mk 0] : List Ref),
      r.addr < ([sampleTemplate] : Heap).length := by
    intro r hr
    simp at hr
    subst hr
    simp
  obtain ⟨h1, h2, h3⟩ := copy_templates_spec [sampleTemplate] [Ref.mk 0] hv
  exact ⟨h1, (h2 0 (by simp)).1, h3 0 (by simp) placeholderTemplate 0 (by simp)⟩

end Handright
